import Mathlib

/-!
# AccessManager — Device Access Control core, shallow embedding

This file embeds the device-access-control core of the AccessManager
repository (an Express/Prisma captive-portal application) as pure Lean
functions and proves properties of the login, refresh, logout,
device-management, and firewall-management routes.

Source correspondence:
* `login`, `refresh`, `logout`       — backend routes/auth.js (`router.post('/login')`,
  `'/refresh'`, `'/logout'`)
* `disconnectDevice`, `deleteDevice`, `renameDevice`, `getDeviceDetail`,
  `getDeviceConnections`            — backend routes/devices.js
* `disconnectAll`                   — backend routes/network.js (`'/disconnect-all'`)
* `addDeviceToWhitelist`, `removeDeviceFromWhitelist`, `initializeCaptivePortal`
                                    — backend services/networkService.js

Modelling conventions: identifiers, addresses, MAC fingerprints, login
identifiers and password hashes are `Nat`; timestamps are `Nat` ticks;
`bcrypt.compare` succeeds exactly on equality of stored and presented
hash; Prisma record creation draws fresh ids from a `nextId` counter;
the iptables FORWARD chain is a list of rules, `iptables -I` prepends,
`iptables -A` appends, `iptables -F` empties the chain, `iptables -D`
removes the first matching rule.
-/

namespace AccessManager

/-- A user row (Prisma `User`): unique email/username, bcrypt hash, active flag. -/
structure User where
  id : Nat
  email : Nat
  username : Nat
  password : Nat
  isActive : Bool
deriving DecidableEq, Repr

/-- A device row (Prisma `Device`). `macAddress` is globally unique in the
schema (the login route looks it up with `findUnique`). New rows default to
`isActive = true` (schema default; the login route relies on it). -/
structure Device where
  id : Nat
  macAddress : Nat
  ipAddress : Nat
  deviceName : String
  userId : Nat
  isActive : Bool
  lastSeen : Nat
deriving DecidableEq, Repr

/-- A refresh credential: `val` is the opaque token value, `jwtExp` the
expiry embedded in the signed JWT (checked by `verifyRefreshToken`). -/
structure RTok where
  val : Nat
  jwtExp : Nat
deriving DecidableEq, Repr

/-- A session row (Prisma `Session`): stores the current refresh credential,
its database-side expiry, and an active flag. New rows default active. -/
structure Session where
  id : Nat
  refreshToken : RTok
  userId : Nat
  isActive : Bool
  expiresAt : Nat
deriving DecidableEq, Repr

/-- A connection row (Prisma `Connection`): open (`isActive`, `endTime = none`)
until closed. -/
structure Connection where
  id : Nat
  userId : Nat
  deviceId : Nat
  ipAddress : Nat
  isActive : Bool
  endTime : Option Nat
deriving DecidableEq, Repr

/-- The relational store: the four core tables, the append-only audit log
(action name and acting user), and a fresh-id counter. -/
structure Db where
  users : List User
  devices : List Device
  sessions : List Session
  connections : List Connection
  auditLog : List (String × Nat)
  nextId : Nat
deriving DecidableEq, Repr

/-- One iptables FORWARD-chain rule. The nullary constructors are the base
policy inserted by `initializeCaptivePortal`; `macRule`/`ipRule` are the
per-device accept rules inserted by `addDeviceToWhitelist`. -/
inductive FwRule
  | loIn | loOut | established | dnsUdp | dnsTcp | httpAccept | httpsAccept | portal | dropAll
  | macRule (mac : Nat)
  | ipRule (ip : Nat)
deriving DecidableEq, Repr

/-- The combined system state: database plus the FORWARD chain of the
host packet filter. -/
structure Sys where
  db : Db
  fw : List FwRule
deriving DecidableEq, Repr

/-! ## FirewallDriver (services/networkService.js) -/

/-- `iptables -D`: delete the first matching rule; absence is not an error. -/
def eraseRule (r : FwRule) : List FwRule → List FwRule
  | [] => []
  | x :: xs => if x = r then xs else x :: eraseRule r xs

/-- The FORWARD chain built by `initializeCaptivePortal`: eight `-I`
inserts (each prepends, so they appear in reverse execution order) followed
by one `-A` default-deny append. -/
def baseRules : List FwRule :=
  [.portal, .httpsAccept, .httpAccept, .dnsTcp, .dnsUdp, .established, .loOut, .loIn, .dropAll]

/-- `initializeCaptivePortal` from services/networkService.js: flushes the
FORWARD chain (`iptables -F FORWARD`, discarding every rule in it, the
per-device accept rules included) and rebuilds the base policy. -/
def initializeCaptivePortal (_fw : List FwRule) : List FwRule :=
  baseRules

/-- `addDeviceToWhitelist` from services/networkService.js: if the MAC
accept rule already exists (`iptables -C`) do nothing; otherwise insert the
MAC rule and then the IP backup rule (each `iptables -I`, prepending). -/
def addDeviceToWhitelist (mac ip : Nat) (fw : List FwRule) : List FwRule :=
  if FwRule.macRule mac ∈ fw then fw
  else FwRule.ipRule ip :: FwRule.macRule mac :: fw

/-- `removeDeviceFromWhitelist` from services/networkService.js: delete the
MAC rule, then the IP rule (`iptables -D ... || true`, so absence succeeds). -/
def removeDeviceFromWhitelist (mac ip : Nat) (fw : List FwRule) : List FwRule :=
  eraseRule (FwRule.ipRule ip) (eraseRule (FwRule.macRule mac) fw)

/-- Number of occurrences of a rule in the chain. -/
def countRule (r : FwRule) (fw : List FwRule) : Nat :=
  fw.countP (fun x => decide (x = r))

/-! ## Auth routes (routes/auth.js) -/

/-- Result of the login route: device id on success, otherwise an HTTP
status, the `error` message, and — only on the quota rejection — the
`activeDevices`/`maxDevices` counts the JSON body carries. -/
inductive LoginRes
  | ok (deviceId : Nat)
  | err (status : Nat) (error : String) (activeDevices maxDevices : Option Nat)
deriving DecidableEq, Repr

/-- `prisma.user.findFirst` on the login route: first user matching the
identifier by email or username and active. -/
def findUser (ident : Nat) (db : Db) : Option User :=
  db.users.find? (fun u => (decide (u.email = ident) || decide (u.username = ident)) && u.isActive)

/-- `prisma.device.count({userId, isActive: true})`. -/
def activeCount (uid : Nat) (db : Db) : Nat :=
  db.devices.countP (fun d => decide (d.userId = uid) && d.isActive)

/-- `prisma.device.findUnique({where: {macAddress}})`: lookup is global,
keyed only by the fingerprint, not restricted to a user. -/
def findDeviceByMac (mac : Nat) (db : Db) : Option Device :=
  db.devices.find? (fun d => decide (d.macAddress = mac))

/-- The quota-rejection message of the login route. -/
def quotaMessage (m : Nat) : String :=
  "Device limit reached. Maximum " ++ toString m ++ " devices allowed per user."

/-- Refresh-session lifetime (`expiresAt.setDate(getDate() + 7)`), in ticks. -/
def refreshTtl : Nat := 7

/-- `router.post('/login')` from routes/auth.js.
Arguments: configured quota `maxD` (`MAX_DEVICES_PER_USER`, default 4),
login identifier, presented password hash, the fingerprint `mac` and
client address `ip` resolved by `getDeviceInfo`, the derived device name,
the current time, the freshly generated refresh credential `ftok`, and
`fwOk` — whether the best-effort `addDeviceToWhitelist` call succeeds
(its failure is caught and swallowed by the route). -/
def login (maxD ident pw mac ip : Nat) (dname : String) (now : Nat)
    (ftok : RTok) (fwOk : Bool) (s : Sys) : LoginRes × Sys :=
  match findUser ident s.db with
  | none => (.err 401 "Invalid credentials" none none, s)
  | some u =>
    if pw = u.password then
      let count := activeCount u.id s.db
      match findDeviceByMac mac s.db with
      | none =>
        if maxD ≤ count then
          (.err 403 (quotaMessage maxD) (some count) (some maxD), s)
        else
          let dev : Device :=
            { id := s.db.nextId, macAddress := mac, ipAddress := ip, deviceName := dname,
              userId := u.id, isActive := true, lastSeen := now }
          let sess : Session :=
            { id := s.db.nextId + 1, refreshToken := ftok, userId := u.id,
              isActive := true, expiresAt := now + refreshTtl }
          let conn : Connection :=
            { id := s.db.nextId + 2, userId := u.id, deviceId := dev.id,
              ipAddress := ip, isActive := true, endTime := none }
          let db' : Db :=
            { users := s.db.users, devices := s.db.devices ++ [dev],
              sessions := s.db.sessions ++ [sess], connections := s.db.connections ++ [conn],
              auditLog := ("LOGIN", u.id) :: s.db.auditLog, nextId := s.db.nextId + 3 }
          (.ok dev.id, { db := db', fw := if fwOk then addDeviceToWhitelist mac ip s.fw else s.fw })
      | some d =>
        -- `prisma.device.update`: refresh address, last-seen, reactivate.
        -- The record keeps its owner (`userId` is not part of the update).
        let devices' := s.db.devices.map (fun x =>
          if x.id = d.id then { x with ipAddress := ip, lastSeen := now, isActive := true } else x)
        let sess : Session :=
          { id := s.db.nextId, refreshToken := ftok, userId := u.id,
            isActive := true, expiresAt := now + refreshTtl }
        let conn : Connection :=
          { id := s.db.nextId + 1, userId := u.id, deviceId := d.id,
            ipAddress := ip, isActive := true, endTime := none }
        let db' : Db :=
          { users := s.db.users, devices := devices',
            sessions := s.db.sessions ++ [sess], connections := s.db.connections ++ [conn],
            auditLog := ("LOGIN", u.id) :: s.db.auditLog, nextId := s.db.nextId + 2 }
        (.ok d.id, { db := db', fw := if fwOk then addDeviceToWhitelist mac ip s.fw else s.fw })
    else (.err 401 "Invalid credentials" none none, s)

/-- Result of the refresh route. -/
inductive RefreshRes
  | ok (newTok : RTok)
  | err (status : Nat) (error : String)
deriving DecidableEq, Repr

/-- The session filter of the refresh route: matching stored credential,
session active, database expiry in the future. -/
def rotPred (tok : RTok) (now : Nat) (s : Session) : Bool :=
  decide (s.refreshToken = tok) && s.isActive && decide (now < s.expiresAt)

/-- `jwt.verify` of the refresh credential: valid while the embedded JWT
expiry is in the future. -/
def verifyRefreshToken (tok : RTok) (now : Nat) : Bool :=
  decide (now < tok.jwtExp)

/-- `router.post('/refresh')` from routes/auth.js: look up the session by
the presented credential (active, unexpired); if absent reply
401 "Invalid or expired refresh token" unchanged; if the JWT itself fails
verification deactivate the session and reply 401 "Invalid refresh token";
if the owning user is inactive (or, unreachably, missing) reply
401 "User account is inactive"; otherwise rotate: store the new credential
and extended expiry on the session. -/
def refresh (tok : RTok) (now : Nat) (newTok : RTok) (db : Db) : RefreshRes × Db :=
  match db.sessions.find? (rotPred tok now) with
  | none => (.err 401 "Invalid or expired refresh token", db)
  | some sess =>
    if verifyRefreshToken tok now then
      match db.users.find? (fun u => decide (u.id = sess.userId)) with
      | some u =>
        if u.isActive then
          (.ok newTok,
           { db with sessions := db.sessions.map (fun x =>
               if x.id = sess.id then { x with refreshToken := newTok, expiresAt := now + refreshTtl } else x) })
        else (.err 401 "User account is inactive", db)
      | none => (.err 401 "User account is inactive", db)
    else
      (.err 401 "Invalid refresh token",
       { db with sessions := db.sessions.map (fun x =>
           if x.id = sess.id then { x with isActive := false } else x) })

/-- Observable side-effect events, used to state ordering properties of the
logout/disconnect flows. -/
inductive Event
  | revokeAttempt (mac ip : Nat) (ok : Bool)
  | deviceDeactivate (deviceId : Nat)
  | connectionsClose (deviceId : Nat)
  | sessionDeactivate (tokVal : Nat)
  | auditWrite (action : String)
deriving DecidableEq, Repr

/-- `router.post('/logout')` from routes/auth.js: if a refresh credential is
supplied, deactivate every session storing it (`updateMany`). The route
touches no device, connection, or firewall state. -/
def logout (rtok : Option RTok) (db : Db) : Db × List Event :=
  match rtok with
  | none => (db, [])
  | some t =>
    ({ db with sessions := db.sessions.map (fun x =>
         if x.refreshToken = t then { x with isActive := false } else x) },
     [.sessionDeactivate t.val])

/-! ## Device routes (routes/devices.js) -/

/-- Result of the device-scoped mutation routes. -/
inductive DevRes
  | ok
  | err (status : Nat) (error : String)
deriving DecidableEq, Repr

/-- The ownership-scoped lookup every device route performs:
`prisma.device.findFirst({where: {id, userId}})`. -/
def findOwnedDevice (uid did : Nat) (db : Db) : Option Device :=
  db.devices.find? (fun d => decide (d.id = did) && decide (d.userId = uid))

/-- `router.post('/:deviceId/disconnect')` from routes/devices.js: resolve
the device scoped to the requester (404 otherwise); best-effort
`removeDeviceFromWhitelist` (failure caught); mark the device inactive;
close its open connections; write the audit entry. The returned trace
records the side effects in execution order. -/
def disconnectDevice (uid did now : Nat) (fwOk : Bool) (s : Sys) : DevRes × Sys × List Event :=
  match findOwnedDevice uid did s.db with
  | none => (.err 404 "Device not found", s, [])
  | some d =>
    let fw' := if fwOk then removeDeviceFromWhitelist d.macAddress d.ipAddress s.fw else s.fw
    let devices' := s.db.devices.map (fun x =>
      if x.id = did then { x with isActive := false } else x)
    let conns' := s.db.connections.map (fun c =>
      if decide (c.deviceId = did) && c.isActive then { c with isActive := false, endTime := some now } else c)
    (.ok,
     { db := { s.db with
                 devices := devices',
                 connections := conns',
                 auditLog := ("DEVICE_DISCONNECT", uid) :: s.db.auditLog },
       fw := fw' },
     [.revokeAttempt d.macAddress d.ipAddress fwOk, .deviceDeactivate did,
      .connectionsClose did, .auditWrite "DEVICE_DISCONNECT"])

/-- `router.delete('/:deviceId')` from routes/devices.js: resolve scoped to
the requester (404 otherwise); best-effort whitelist removal; delete the
device row (its connections go with it by the schema's cascade); audit. -/
def deleteDevice (uid did : Nat) (fwOk : Bool) (s : Sys) : DevRes × Sys :=
  match findOwnedDevice uid did s.db with
  | none => (.err 404 "Device not found", s)
  | some d =>
    let fw' := if fwOk then removeDeviceFromWhitelist d.macAddress d.ipAddress s.fw else s.fw
    (.ok,
     { db := { s.db with
               devices := s.db.devices.filter (fun x => !decide (x.id = did)),
               connections := s.db.connections.filter (fun c => !decide (c.deviceId = did)),
               auditLog := ("DEVICE_DELETE", uid) :: s.db.auditLog },
       fw := fw' })

/-- Whitespace as recognized by JavaScript `String.prototype.trim` (the
common cases; enough to model the route's emptiness check). -/
def isWs (c : Char) : Bool :=
  decide (c = ' ') || decide (c = '\t') || decide (c = '\n') || decide (c = '\r')

/-- `deviceName.trim()`: strip leading and trailing whitespace. -/
def strTrim (s : String) : String :=
  String.mk (((s.data.dropWhile isWs).reverse.dropWhile isWs).reverse)

/-- `router.put('/:deviceId')` from routes/devices.js: 400 on an empty name,
404 unless the device belongs to the requester, else update the name. -/
def renameDevice (uid did : Nat) (name : String) (db : Db) : DevRes × Db :=
  if strTrim name = "" then (.err 400 "Device name is required", db)
  else
    match findOwnedDevice uid did db with
    | none => (.err 404 "Device not found", db)
    | some _ =>
      (.ok,
       { db with devices := db.devices.map (fun x =>
           if x.id = did then { x with deviceName := strTrim name } else x) })

/-- `router.get('/:deviceId')` from routes/devices.js: the detail view is
the ownership-scoped lookup; the route 404s on `none`. Pure read. -/
def getDeviceDetail (uid did : Nat) (db : Db) : Option Device :=
  findOwnedDevice uid did db

/-- `router.get('/:deviceId/connections')` from routes/devices.js: 404
unless the device belongs to the requester, else the device's connection
history. Pure read. -/
def getDeviceConnections (uid did : Nat) (db : Db) : Option (List Connection) :=
  (findOwnedDevice uid did db).map (fun _ => db.connections.filter (fun c => decide (c.deviceId = did)))

/-! ## Admin disconnect-all (routes/network.js) -/

/-- `router.post('/disconnect-all')` from routes/network.js: fetch the
active devices; loop a best-effort `removeDeviceFromWhitelist` over them,
catching each failure (`fails` injects per-device failures); mark every
active device inactive and close every open connection regardless; audit;
reply with `disconnectedDevices: activeDevices.length`. Returns the count,
the new state, and the revoke-attempt trace. -/
def disconnectAll (fails : Nat → Bool) (now adminId : Nat) (s : Sys) : Nat × Sys × List Event :=
  let active := s.db.devices.filter (fun d => d.isActive)
  let fw' := active.foldl (fun fw d =>
    if fails d.id then fw else removeDeviceFromWhitelist d.macAddress d.ipAddress fw) s.fw
  let devices' := s.db.devices.map (fun d =>
    if d.isActive then { d with isActive := false } else d)
  let conns' := s.db.connections.map (fun c =>
    if c.isActive then { c with isActive := false, endTime := some now } else c)
  (active.length,
   { db := { s.db with
               devices := devices',
               connections := conns',
               auditLog := ("NETWORK_DISCONNECT_ALL", adminId) :: s.db.auditLog },
     fw := fw' },
   active.map (fun d => Event.revokeAttempt d.macAddress d.ipAddress (!fails d.id))
     ++ [.auditWrite "NETWORK_DISCONNECT_ALL"])

/-- The per-user quota invariant of the spec: no user owns more than `maxD`
active devices. -/
def QuotaInv (maxD : Nat) (db : Db) : Prop :=
  ∀ uid, activeCount uid db ≤ maxD

/-! ## Concrete states used by witnesses and counterexamples -/

/-- The single active user of the C4/C9 witness store. -/
def c4wUser : User := { id := 1, email := 100, username := 200, password := 7, isActive := true }

/-- A user-1 device with fingerprint `10 + i`. -/
def c4wDev (i : Nat) (act : Bool) : Device :=
  { id := i, macAddress := 10 + i, ipAddress := 0, deviceName := "d", userId := 1,
    isActive := act, lastSeen := 0 }

/-- Witness state for C4/C9: user 1 at the quota with four active devices. -/
def c4w : Sys :=
  { db := { users := [c4wUser],
            devices := [c4wDev 1 true, c4wDev 2 true, c4wDev 3 true, c4wDev 4 true],
            sessions := [], connections := [], auditLog := [], nextId := 100 },
    fw := baseRules }

/-- Device 10, owned by user 2, used by the C10 witness. -/
def c10wDev : Device :=
  { id := 10, macAddress := 99, ipAddress := 3, deviceName := "b", userId := 2,
    isActive := true, lastSeen := 0 }

/-- Witness state for C10: requester 1 exists, device 10 belongs to user 2. -/
def c10w : Sys :=
  { db := { users := [c4wUser, { id := 2, email := 101, username := 201, password := 8, isActive := true }],
            devices := [c10wDev],
            sessions := [], connections := [], auditLog := [], nextId := 50 },
    fw := [.macRule 99, .ipRule 3] }

/-- Active device 10 of user 1, granted at the filter, for the C5 state. -/
def c5wDev : Device :=
  { id := 10, macAddress := 99, ipAddress := 3, deviceName := "b", userId := 1,
    isActive := true, lastSeen := 0 }

/-- A fully granted device-session state for C5: active device, active
session, open connection, accept rules present in the chain. -/
def c5w : Sys :=
  { db := { users := [c4wUser],
            devices := [c5wDev],
            sessions := [{ id := 1, refreshToken := { val := 1, jwtExp := 1000 }, userId := 1,
                           isActive := true, expiresAt := 10 }],
            connections := [{ id := 2, userId := 1, deviceId := 10, ipAddress := 3,
                              isActive := true, endTime := none }],
            auditLog := [], nextId := 3 },
    fw := [.ipRule 3, .macRule 99, .dropAll] }

/-- Counterexample state for C1: user 1 already holds four active devices
and one inactive device whose fingerprint is 15. -/
def c1cxDb : Db :=
  { users := [c4wUser],
    devices := [c4wDev 1 true, c4wDev 2 true, c4wDev 3 true, c4wDev 4 true, c4wDev 5 false],
    sessions := [], connections := [], auditLog := [], nextId := 100 }

/-- Witness state for C1: one active user, no devices yet. -/
def c1w : Sys :=
  { db := { users := [c4wUser], devices := [], sessions := [], connections := [],
            auditLog := [], nextId := 0 },
    fw := [] }

/-- Counterexample state for C2: requester user 1 and user 2, where the only
record with fingerprint 99 is user 2's inactive device 10. -/
def c2cxDb : Db :=
  { users := [c4wUser, { id := 2, email := 101, username := 201, password := 8, isActive := true }],
    devices := [{ id := 10, macAddress := 99, ipAddress := 3, deviceName := "b", userId := 2,
                  isActive := false, lastSeen := 0 }],
    sessions := [], connections := [], auditLog := [], nextId := 50 }

/-- The session of the C3 states: credential value 1, JWT expiry 1000,
database expiry 10. -/
def c3Sess : Session :=
  { id := 1, refreshToken := { val := 1, jwtExp := 1000 }, userId := 1,
    isActive := true, expiresAt := 10 }

/-- C3 base state: user 1 with one active refresh session. -/
def c3Db : Db :=
  { users := [c4wUser], devices := [], sessions := [c3Sess], connections := [],
    auditLog := [], nextId := 0 }

/-- C3 comparison state: the same session already past its database expiry. -/
def c3DbExpired : Db :=
  { c3Db with sessions := [{ c3Sess with expiresAt := 1 }] }

/-! ## Helper lemmas on `countP` -/

/-- Mapping a row transformation that does not change the predicate's value
on the rows actually present leaves the count unchanged. -/
theorem countP_map_congr {α : Type} (f : α → α) (p : α → Bool) (l : List α)
    (h : ∀ x ∈ l, p (f x) = p x) : (l.map f).countP p = l.countP p := by
  induction l with
  | nil => rfl
  | cons a t ih =>
    simp only [List.map_cons, List.countP_cons]
    rw [h a (List.mem_cons_self a t), ih (fun x hx => h x (List.mem_cons_of_mem a hx))]

/-- Mapping a row transformation that never turns the predicate on cannot
increase the count. -/
theorem countP_map_le {α : Type} (f : α → α) (p : α → Bool) (l : List α)
    (h : ∀ x, p (f x) = true → p x = true) : (l.map f).countP p ≤ l.countP p := by
  induction l with
  | nil => exact Nat.le_refl 0
  | cons a t ih =>
    rw [List.map_cons, List.countP_cons, List.countP_cons]
    by_cases ha : p (f a) = true
    · rw [if_pos ha, if_pos (h a ha)]; omega
    · rw [if_neg ha]; omega

/-- Filtering first cannot increase the count. -/
theorem countP_filter_le {α : Type} (p q : α → Bool) (l : List α) :
    (l.filter q).countP p ≤ l.countP p := by
  induction l with
  | nil => exact Nat.le_refl 0
  | cons a t ih =>
    rw [List.filter_cons]
    by_cases h : q a = true
    · rw [if_pos h, List.countP_cons, List.countP_cons]; omega
    · rw [if_neg h, List.countP_cons]; omega

/-- Composing a row transformation that preserves a projection with that
projection leaves the mapped list unchanged. -/
theorem map_map_proj {α β : Type} (f : α → α) (g : α → β) (l : List α)
    (h : ∀ x, g (f x) = g x) : (l.map f).map g = l.map g := by
  induction l with
  | nil => rfl
  | cons a t ih => simp only [List.map_cons, h, ih]

/-! ## Claim theorems -/

/-- C7 (counterexample): the claim says `initialize()` leaves per-device
accept rules inserted by `grant` undisturbed, but `initializeCaptivePortal`
flushes the whole FORWARD chain (`iptables -F FORWARD`): the accept rule for
MAC 5 granted by `addDeviceToWhitelist` is present before the call and gone
after it. -/
theorem c7_initialize_wipes_grant_cx :
    FwRule.macRule 5 ∈ addDeviceToWhitelist 5 7 baseRules ∧
    FwRule.macRule 5 ∉ initializeCaptivePortal (addDeviceToWhitelist 5 7 baseRules) := by
  decide

/-- C7 (amended): `initializeCaptivePortal` is safe to call repeatedly in the
sense that every call rebuilds exactly the same base policy (so it is
idempotent), but it does so by flushing the entire FORWARD chain: no
per-device accept rule (MAC or IP) survives a call. -/
theorem c7_initialize_amended (fw : List FwRule) (mac ip : Nat) :
    initializeCaptivePortal fw = baseRules ∧
    initializeCaptivePortal (initializeCaptivePortal fw) = initializeCaptivePortal fw ∧
    FwRule.macRule mac ∉ initializeCaptivePortal fw ∧
    FwRule.ipRule ip ∉ initializeCaptivePortal fw := by
  refine ⟨rfl, rfl, ?_, ?_⟩ <;> simp [initializeCaptivePortal, baseRules]

/-- C8: `addDeviceToWhitelist` (grant) is idempotent on the filter state:
a second call with the same identity/address from any chain is a no-op, and
from a chain not yet containing the MAC accept rule, repeated granting
leaves exactly one more MAC accept rule than before (exactly one when the
rule was absent altogether). -/
theorem c8_grant_idempotent (mac ip : Nat) (fw : List FwRule) :
    addDeviceToWhitelist mac ip (addDeviceToWhitelist mac ip fw) = addDeviceToWhitelist mac ip fw ∧
    (FwRule.macRule mac ∉ fw →
      countRule (.macRule mac) (addDeviceToWhitelist mac ip (addDeviceToWhitelist mac ip fw)) =
        countRule (.macRule mac) fw + 1) := by
  constructor
  · by_cases h : FwRule.macRule mac ∈ fw
    · simp [addDeviceToWhitelist, h]
    · simp [addDeviceToWhitelist, h]
  · intro h
    simp [addDeviceToWhitelist, h, countRule, List.countP_cons]

/-- C8 (witness): the idempotence theorem applied to the empty chain,
identity 1, address 2. -/
theorem c8_grant_idempotent_witness :
    addDeviceToWhitelist 1 2 (addDeviceToWhitelist 1 2 []) = addDeviceToWhitelist 1 2 [] ∧
    (FwRule.macRule 1 ∉ ([] : List FwRule) →
      countRule (.macRule 1) (addDeviceToWhitelist 1 2 (addDeviceToWhitelist 1 2 [])) =
        countRule (.macRule 1) [] + 1) :=
  c8_grant_idempotent 1 2 []

/-- C6 (counterexample): the claim says disconnect-all returns an aggregate
count equal to the number of revokes that succeeded; with one active device
and every firewall revoke failing, the route still replies
`disconnectedDevices: 1` while zero revokes succeeded. -/
theorem c6_count_not_successes_cx :
    (disconnectAll (fun _ => true) 0 9
      { db := { users := [], devices :=
                  [{ id := 1, macAddress := 2, ipAddress := 3, deviceName := "d",
                     userId := 1, isActive := true, lastSeen := 0 }],
                sessions := [], connections := [], auditLog := [], nextId := 10 },
        fw := [.macRule 2, .ipRule 3] }).1 = 1 ∧
    ((disconnectAll (fun _ => true) 0 9
      { db := { users := [], devices :=
                  [{ id := 1, macAddress := 2, ipAddress := 3, deviceName := "d",
                     userId := 1, isActive := true, lastSeen := 0 }],
                sessions := [], connections := [], auditLog := [], nextId := 10 },
        fw := [.macRule 2, .ipRule 3] }).2.2.countP (fun e =>
          match e with
          | .revokeAttempt _ _ ok => ok
          | _ => false)) = 0 ∧
    (1 : Nat) ≠ 0 := by
  decide

/-- C6 (amended): `disconnect-all` attempts a firewall revoke for every
currently active device and continues past individual failures (the attempt
trace covers every active device whatever the failure pattern), marks every
device inactive and closes every connection regardless of those failures —
but the aggregate count it returns is the number of previously active
devices (revokes attempted), not the number of revokes that succeeded. -/
theorem c6_disconnectAll_amended (fails : Nat → Bool) (now adminId : Nat) (s : Sys) :
    (disconnectAll fails now adminId s).1 = (s.db.devices.filter (fun d => d.isActive)).length ∧
    (disconnectAll fails now adminId s).2.2 =
      (s.db.devices.filter (fun d => d.isActive)).map
        (fun d => Event.revokeAttempt d.macAddress d.ipAddress (!fails d.id)) ++
        [.auditWrite "NETWORK_DISCONNECT_ALL"] ∧
    ((disconnectAll fails now adminId s).2.1.db.devices.all fun d => !d.isActive) = true ∧
    ((disconnectAll fails now adminId s).2.1.db.connections.all fun c => !c.isActive) = true := by
  refine ⟨rfl, rfl, ?_, ?_⟩
  · simp only [disconnectAll, List.all_eq_true, List.mem_map]
    rintro d ⟨x, hx, rfl⟩
    by_cases hxa : x.isActive = true <;> simp [hxa]
  · simp only [disconnectAll, List.all_eq_true, List.mem_map]
    rintro c ⟨x, hx, rfl⟩
    by_cases hxa : x.isActive = true <;> simp [hxa]

/-- C4: a login that authenticates but finds the user at the quota with no
matching existing device is rejected with the 403 quota error carrying the
current active count and the configured maximum, and the whole system state
(devices, sessions, connections, firewall, audit log) is returned unchanged
— no credentials issued, no records created. -/
theorem c4_quota_rejection (maxD ident pw mac ip : Nat) (dname : String) (now : Nat)
    (ftok : RTok) (fwOk : Bool) (s : Sys) (u : User)
    (hu : findUser ident s.db = some u)
    (hpw : pw = u.password)
    (hd : findDeviceByMac mac s.db = none)
    (hq : maxD ≤ activeCount u.id s.db) :
    login maxD ident pw mac ip dname now ftok fwOk s =
      (.err 403 (quotaMessage maxD) (some (activeCount u.id s.db)) (some maxD), s) := by
  simp [login, hu, hpw, hd, hq]

/-- C4 (witness): a user with four active devices, quota 4, logging in from
a fifth, unknown fingerprint. -/
theorem c4_quota_rejection_witness :
    findUser 100 c4w.db = some c4wUser ∧
    (7 : Nat) = c4wUser.password ∧
    findDeviceByMac 77 c4w.db = none ∧
    4 ≤ activeCount 1 c4w.db ∧
    login 4 100 7 77 9 "n" 3 { val := 1, jwtExp := 1000 } true c4w =
      (.err 403 (quotaMessage 4) (some (activeCount 1 c4w.db)) (some 4), c4w) :=
  ⟨by decide, by decide, by decide, by decide,
   c4_quota_rejection 4 100 7 77 9 "n" 3 { val := 1, jwtExp := 1000 } true c4w c4wUser
     (by decide) (by decide) (by decide) (by decide)⟩

/-- C9: the two authentication-failure paths of the login route are
indistinguishable — an identifier matching no active user and a known
identifier with a wrong secret both produce exactly the response
`401 "Invalid credentials"` with no device counts, leave their states
untouched, and yield equal result values. -/
theorem c9_failure_indistinguishable
    (maxD1 ident1 pw1 mac1 ip1 : Nat) (dn1 : String) (now1 : Nat) (t1 : RTok) (f1 : Bool) (s1 : Sys)
    (maxD2 ident2 pw2 mac2 ip2 : Nat) (dn2 : String) (now2 : Nat) (t2 : RTok) (f2 : Bool) (s2 : Sys)
    (u : User)
    (h1 : findUser ident1 s1.db = none)
    (h2 : findUser ident2 s2.db = some u)
    (hpw : pw2 ≠ u.password) :
    login maxD1 ident1 pw1 mac1 ip1 dn1 now1 t1 f1 s1 =
      (.err 401 "Invalid credentials" none none, s1) ∧
    login maxD2 ident2 pw2 mac2 ip2 dn2 now2 t2 f2 s2 =
      (.err 401 "Invalid credentials" none none, s2) ∧
    (login maxD1 ident1 pw1 mac1 ip1 dn1 now1 t1 f1 s1).1 =
      (login maxD2 ident2 pw2 mac2 ip2 dn2 now2 t2 f2 s2).1 := by
  have e1 : login maxD1 ident1 pw1 mac1 ip1 dn1 now1 t1 f1 s1 =
      (.err 401 "Invalid credentials" none none, s1) := by
    simp [login, h1]
  have e2 : login maxD2 ident2 pw2 mac2 ip2 dn2 now2 t2 f2 s2 =
      (.err 401 "Invalid credentials" none none, s2) := by
    simp [login, h2, hpw]
  exact ⟨e1, e2, by rw [e1, e2]⟩

/-- C9 (witness): unknown identifier 999 versus known identifier 100 with a
wrong secret, over the same one-user store. -/
theorem c9_failure_indistinguishable_witness :
    findUser 999 c4w.db = none ∧
    findUser 100 c4w.db = some c4wUser ∧
    (8 : Nat) ≠ c4wUser.password ∧
    login 4 999 7 77 9 "n" 3 { val := 1, jwtExp := 1000 } true c4w =
      (.err 401 "Invalid credentials" none none, c4w) ∧
    login 4 100 8 77 9 "n" 3 { val := 1, jwtExp := 1000 } true c4w =
      (.err 401 "Invalid credentials" none none, c4w) ∧
    (login 4 999 7 77 9 "n" 3 { val := 1, jwtExp := 1000 } true c4w).1 =
      (login 4 100 8 77 9 "n" 3 { val := 1, jwtExp := 1000 } true c4w).1 :=
  ⟨by decide, by decide, by decide,
   c9_failure_indistinguishable 4 999 7 77 9 "n" 3 { val := 1, jwtExp := 1000 } true c4w
     4 100 8 77 9 "n" 3 { val := 1, jwtExp := 1000 } true c4w c4wUser
     (by decide) (by decide) (by decide)⟩

/-- C10: every device-scoped route (disconnect, delete, rename, detail,
connection history) resolves the device with the requester's id in the
filter; when the device id exists but belongs to a different user, each
route answers 404 "Device not found" and changes neither the database nor
the firewall. -/
theorem c10_owner_scoping (uid did now : Nat) (fwOk : Bool) (name : String)
    (s : Sys) (d : Device)
    (hmem : d ∈ s.db.devices) (hid : d.id = did) (hown : d.userId ≠ uid)
    (hids : (s.db.devices.map (fun x => x.id)).Nodup)
    (hname : ¬ strTrim name = "") :
    disconnectDevice uid did now fwOk s = (.err 404 "Device not found", s, []) ∧
    deleteDevice uid did fwOk s = (.err 404 "Device not found", s) ∧
    renameDevice uid did name s.db = (.err 404 "Device not found", s.db) ∧
    getDeviceDetail uid did s.db = none ∧
    getDeviceConnections uid did s.db = none := by
  have hnone : findOwnedDevice uid did s.db = none := by
    rw [findOwnedDevice, List.find?_eq_none]
    intro x hx
    simp only [Bool.and_eq_true, decide_eq_true_eq, not_and]
    intro hxid hxuid
    have hxd : x = d :=
      List.inj_on_of_nodup_map hids hx hmem (by rw [hxid, hid])
    exact hown (hxd ▸ hxuid)
  refine ⟨?_, ?_, ?_, ?_, ?_⟩
  · simp [disconnectDevice, hnone]
  · simp [deleteDevice, hnone]
  · simp [renameDevice, hname, hnone]
  · simp [getDeviceDetail, hnone]
  · simp [getDeviceConnections, hnone]

/-- C10 (witness): requester 1 targeting device 10, which exists but belongs
to user 2; every route 404s and leaves the state alone. -/
theorem c10_owner_scoping_witness :
    c10wDev ∈ c10w.db.devices ∧ c10wDev.id = 10 ∧ c10wDev.userId ≠ 1 ∧
    (c10w.db.devices.map (fun x => x.id)).Nodup ∧
    ¬ strTrim "phone" = "" ∧
    disconnectDevice 1 10 5 true c10w = (.err 404 "Device not found", c10w, []) ∧
    deleteDevice 1 10 true c10w = (.err 404 "Device not found", c10w) ∧
    renameDevice 1 10 "phone" c10w.db = (.err 404 "Device not found", c10w.db) ∧
    getDeviceDetail 1 10 c10w.db = none ∧
    getDeviceConnections 1 10 c10w.db = none :=
  ⟨by decide, by decide, by decide, by decide, by decide,
   c10_owner_scoping 1 10 5 true "phone" c10w c10wDev
     (by decide) (by decide) (by decide) (by decide) (by decide)⟩

/-- C5 (counterexample): the claim says every logout/disconnect of a granted
device-session revokes the firewall rule, then the session credential, then
closes the connection. On a fully granted state (active device 10 of user 1,
active session, open connection, accept rules in the chain) the disconnect
route emits no session-revocation effect at all, and the logout route emits
no firewall revoke and no connection close; the stored session is still
active after the disconnect. -/
theorem c5_no_session_revoke_cx :
    (disconnectDevice 1 10 5 true c5w).1 = .ok ∧
    ((disconnectDevice 1 10 5 true c5w).2.2.all (fun e =>
        match e with
        | .sessionDeactivate _ => false
        | _ => true)) = true ∧
    ((disconnectDevice 1 10 5 true c5w).2.1.db.sessions.all (fun x => x.isActive)) = true ∧
    ((logout (some { val := 1, jwtExp := 1000 }) c5w.db).2.all (fun e =>
        match e with
        | .revokeAttempt _ _ _ => false
        | .connectionsClose _ => false
        | _ => true)) = true := by
  decide

/-- C5 (amended): on device disconnect the route revokes the firewall rule,
then deactivates the device, then closes its open connections, in that
order, and never revokes a session credential; logout deactivates the
matching session only, touching neither firewall nor connections. -/
theorem c5_disconnect_order_amended (uid did now : Nat) (fwOk : Bool) (s : Sys) (d : Device)
    (hfind : findOwnedDevice uid did s.db = some d) :
    (disconnectDevice uid did now fwOk s).2.2 =
      [.revokeAttempt d.macAddress d.ipAddress fwOk, .deviceDeactivate did,
       .connectionsClose did, .auditWrite "DEVICE_DISCONNECT"] ∧
    (∀ t, Event.sessionDeactivate t ∉ (disconnectDevice uid did now fwOk s).2.2) ∧
    (∀ (t : RTok) (db : Db),
      (logout (some t) db).2 = [.sessionDeactivate t.val] ∧
      (logout (some t) db).1.devices = db.devices ∧
      (logout (some t) db).1.connections = db.connections) := by
  refine ⟨by simp [disconnectDevice, hfind], ?_, ?_⟩
  · intro t
    simp [disconnectDevice, hfind]
  · intro t db
    exact ⟨rfl, rfl, rfl⟩

/-- C5 (witness): the amended ordering theorem applied to the granted
state of the counterexample. -/
theorem c5_disconnect_order_amended_witness :
    findOwnedDevice 1 10 c5w.db = some c5wDev ∧
    ((disconnectDevice 1 10 5 true c5w).2.2 =
      [.revokeAttempt c5wDev.macAddress c5wDev.ipAddress true, .deviceDeactivate 10,
       .connectionsClose 10, .auditWrite "DEVICE_DISCONNECT"] ∧
    (∀ t, Event.sessionDeactivate t ∉ (disconnectDevice 1 10 5 true c5w).2.2) ∧
    (∀ (t : RTok) (db : Db),
      (logout (some t) db).2 = [.sessionDeactivate t.val] ∧
      (logout (some t) db).1.devices = db.devices ∧
      (logout (some t) db).1.connections = db.connections)) :=
  ⟨by decide, c5_disconnect_order_amended 1 10 5 true c5w c5wDev (by decide)⟩

/-- C2 (counterexample): the claim says a fingerprint that matches only a
device owned by a different user is treated as not found and the login goes
through the quota-checked creation path. User 1 logs in with fingerprint 99,
which matches only user 2's device 10: the login succeeds by reusing and
reactivating user 2's record (refreshing its address and last-seen), and no
new device record is created. -/
theorem c2_cross_user_reuse_cx :
    (login 4 100 7 99 4 "n" 3 { val := 1, jwtExp := 1000 } true { db := c2cxDb, fw := [] }).1 =
      .ok 10 ∧
    (login 4 100 7 99 4 "n" 3 { val := 1, jwtExp := 1000 } true { db := c2cxDb, fw := [] }).2.db.devices =
      [{ id := 10, macAddress := 99, ipAddress := 4, deviceName := "b", userId := 2,
         isActive := true, lastSeen := 3 }] := by
  decide

/-- C2 (amended): device resolution on login is global by fingerprint, not
scoped to the authenticated user: whenever any device record matches the
fingerprint — whoever owns it — the login reuses that record, refreshing its
address and last-seen and reactivating it, without creating a device and
without changing any device's owner; the session it opens belongs to the
authenticated user. (Same-user re-login therefore reuses the user's own
record and consumes no quota, but another user's matching record is reused
and reactivated rather than treated as not found.) -/
theorem c2_fingerprint_reuse_amended
    (maxD ident pw mac ip : Nat) (dname : String) (now : Nat)
    (ftok : RTok) (fwOk : Bool) (s : Sys) (u : User) (d : Device)
    (hu : findUser ident s.db = some u)
    (hpw : pw = u.password)
    (hd : findDeviceByMac mac s.db = some d) :
    (login maxD ident pw mac ip dname now ftok fwOk s).1 = .ok d.id ∧
    (login maxD ident pw mac ip dname now ftok fwOk s).2.db.devices.map (fun x => x.id) =
      s.db.devices.map (fun x => x.id) ∧
    (login maxD ident pw mac ip dname now ftok fwOk s).2.db.devices.map (fun x => x.userId) =
      s.db.devices.map (fun x => x.userId) ∧
    (∀ x ∈ (login maxD ident pw mac ip dname now ftok fwOk s).2.db.devices,
      x.id = d.id → x.isActive = true ∧ x.ipAddress = ip ∧ x.lastSeen = now) ∧
    (login maxD ident pw mac ip dname now ftok fwOk s).2.db.sessions =
      s.db.sessions ++
        [{ id := s.db.nextId, refreshToken := ftok, userId := u.id, isActive := true,
           expiresAt := now + refreshTtl }] := by
  refine ⟨?_, ?_, ?_, ?_, ?_⟩
  · simp [login, hu, hpw, hd]
  · simp only [login, hu, hpw, hd]
    simp only [if_pos]
    exact map_map_proj _ _ _ (fun x => by by_cases hc : x.id = d.id <;> simp [hc])
  · simp only [login, hu, hpw, hd]
    simp only [if_pos]
    exact map_map_proj _ _ _ (fun x => by by_cases hc : x.id = d.id <;> simp [hc])
  · simp only [login, hu, hpw, hd]
    simp only [if_pos]
    intro x hx hxid
    rw [List.mem_map] at hx
    obtain ⟨y, hy, rfl⟩ := hx
    by_cases hc : y.id = d.id
    · simp [hc]
    · simp only [hc, if_neg] at hxid ⊢
      exact absurd hxid hc
  · simp [login, hu, hpw, hd]

/-- C2 (witness): the amended theorem applied to the cross-user state of the
counterexample: user 1 authenticates, fingerprint 99 matches user 2's
device. -/
theorem c2_fingerprint_reuse_amended_witness :
    findUser 100 c2cxDb = some c4wUser ∧
    (7 : Nat) = c4wUser.password ∧
    findDeviceByMac 99 c2cxDb = some
      { id := 10, macAddress := 99, ipAddress := 3, deviceName := "b", userId := 2,
        isActive := false, lastSeen := 0 } ∧
    ((login 4 100 7 99 4 "n" 3 { val := 1, jwtExp := 1000 } true { db := c2cxDb, fw := [] }).1 =
      .ok 10 ∧
     (login 4 100 7 99 4 "n" 3 { val := 1, jwtExp := 1000 } true
        { db := c2cxDb, fw := [] }).2.db.devices.map (fun x => x.id) =
       c2cxDb.devices.map (fun x => x.id) ∧
     (login 4 100 7 99 4 "n" 3 { val := 1, jwtExp := 1000 } true
        { db := c2cxDb, fw := [] }).2.db.devices.map (fun x => x.userId) =
       c2cxDb.devices.map (fun x => x.userId) ∧
     (∀ x ∈ (login 4 100 7 99 4 "n" 3 { val := 1, jwtExp := 1000 } true
        { db := c2cxDb, fw := [] }).2.db.devices,
       x.id = 10 → x.isActive = true ∧ x.ipAddress = 4 ∧ x.lastSeen = 3) ∧
     (login 4 100 7 99 4 "n" 3 { val := 1, jwtExp := 1000 } true
        { db := c2cxDb, fw := [] }).2.db.sessions =
       c2cxDb.sessions ++
         [{ id := c2cxDb.nextId, refreshToken := { val := 1, jwtExp := 1000 }, userId := c4wUser.id,
            isActive := true, expiresAt := 3 + refreshTtl }]) :=
  ⟨by decide, by decide, by decide,
   c2_fingerprint_reuse_amended 4 100 7 99 4 "n" 3 { val := 1, jwtExp := 1000 } true
     { db := c2cxDb, fw := [] } c4wUser
     { id := 10, macAddress := 99, ipAddress := 3, deviceName := "b", userId := 2,
       isActive := false, lastSeen := 0 }
     (by decide) (by decide) (by decide)⟩

/-- C3 (counterexample): the claim says replaying a rotated refresh
credential before its expiry fails with a `TokenRevoked` error distinguished
from `TokenExpired`. Credential 1 is rotated successfully at time 1; its
replay at time 2 (well before both its JWT expiry 1000 and its database
expiry) is rejected with 401 "Invalid or expired refresh token" — exactly
the same error value an expired credential receives — so the two failure
causes are not distinguished. -/
theorem c3_replay_error_not_distinguished_cx :
    (refresh { val := 1, jwtExp := 1000 } 1 { val := 2, jwtExp := 1001 } c3Db).1 =
      .ok { val := 2, jwtExp := 1001 } ∧
    (refresh { val := 1, jwtExp := 1000 } 2 { val := 3, jwtExp := 1002 }
      (refresh { val := 1, jwtExp := 1000 } 1 { val := 2, jwtExp := 1001 } c3Db).2).1 =
      .err 401 "Invalid or expired refresh token" ∧
    (refresh { val := 1, jwtExp := 1000 } 5 { val := 3, jwtExp := 1002 } c3DbExpired).1 =
      .err 401 "Invalid or expired refresh token" ∧
    (refresh { val := 1, jwtExp := 1000 } 2 { val := 3, jwtExp := 1002 }
      (refresh { val := 1, jwtExp := 1000 } 1 { val := 2, jwtExp := 1001 } c3Db).2).1 =
    (refresh { val := 1, jwtExp := 1000 } 5 { val := 3, jwtExp := 1002 } c3DbExpired).1 := by
  decide

/-- C3 (amended): after a successful rotation, replaying the superseded
refresh credential at any time always fails — with the same generic
401 "Invalid or expired refresh token" response that an expired credential
receives, not a distinct revoked-token error — and the failed replay
performs no rotation and issues no new credentials (the store is returned
unchanged). Token uniqueness across sessions (the schema's `@unique`) is
assumed. -/
theorem c3_replay_rejected_amended
    (db : Db) (tok newTok tok2 : RTok) (t1 t2 : Nat) (sess0 : Session) (u : User)
    (hfind : db.sessions.find? (rotPred tok t1) = some sess0)
    (hjwt : verifyRefreshToken tok t1 = true)
    (hu : db.users.find? (fun x => decide (x.id = sess0.userId)) = some u)
    (hua : u.isActive = true)
    (hneq : newTok ≠ tok)
    (huniq : ∀ s1 ∈ db.sessions, ∀ s2 ∈ db.sessions,
        s1.refreshToken = s2.refreshToken → s1.id = s2.id) :
    (refresh tok t1 newTok db).1 = .ok newTok ∧
    refresh tok t2 tok2 (refresh tok t1 newTok db).2 =
      (.err 401 "Invalid or expired refresh token", (refresh tok t1 newTok db).2) := by
  have hmem0 : sess0 ∈ db.sessions := List.mem_of_find?_eq_some hfind
  have hp0 : rotPred tok t1 sess0 = true := List.find?_some hfind
  have htok0 : sess0.refreshToken = tok := by
    simp only [rotPred, Bool.and_eq_true, decide_eq_true_eq] at hp0
    exact hp0.1.1
  have e1 : refresh tok t1 newTok db =
      (.ok newTok,
       { db with sessions := db.sessions.map (fun x =>
           if x.id = sess0.id then { x with refreshToken := newTok, expiresAt := t1 + refreshTtl }
           else x) }) := by
    simp [refresh, hfind, hjwt, hu, hua]
  have hnone :
      (db.sessions.map (fun x =>
        if x.id = sess0.id then { x with refreshToken := newTok, expiresAt := t1 + refreshTtl }
        else x)).find? (rotPred tok t2) = none := by
    rw [List.find?_eq_none]
    intro x hx
    rw [List.mem_map] at hx
    obtain ⟨y, hy, rfl⟩ := hx
    by_cases hyid : y.id = sess0.id
    · simp [hyid, rotPred, hneq]
    · rw [if_neg hyid]
      simp only [rotPred, Bool.and_eq_true, decide_eq_true_eq, not_and]
      rintro ⟨hyt, -⟩
      exact fun _ => hyid (huniq y hy sess0 hmem0 (hyt.trans htok0.symm))
  refine ⟨by rw [e1], ?_⟩
  rw [e1]
  simp [refresh, hnone]

/-- C3 (witness): the amended theorem applied to the concrete session store
of the counterexample (rotation at time 1, replay with a fresh token). -/
theorem c3_replay_rejected_amended_witness :
    c3Db.sessions.find? (rotPred { val := 1, jwtExp := 1000 } 1) = some c3Sess ∧
    verifyRefreshToken { val := 1, jwtExp := 1000 } 1 = true ∧
    c3Db.users.find? (fun x => decide (x.id = c3Sess.userId)) = some c4wUser ∧
    c4wUser.isActive = true ∧
    ({ val := 2, jwtExp := 1001 } : RTok) ≠ { val := 1, jwtExp := 1000 } ∧
    ((refresh { val := 1, jwtExp := 1000 } 1 { val := 2, jwtExp := 1001 } c3Db).1 =
      .ok { val := 2, jwtExp := 1001 } ∧
     refresh { val := 1, jwtExp := 1000 } 2 { val := 3, jwtExp := 1002 }
        (refresh { val := 1, jwtExp := 1000 } 1 { val := 2, jwtExp := 1001 } c3Db).2 =
      (.err 401 "Invalid or expired refresh token",
       (refresh { val := 1, jwtExp := 1000 } 1 { val := 2, jwtExp := 1001 } c3Db).2)) :=
  ⟨by decide, by decide, by decide, by decide, by decide,
   c3_replay_rejected_amended c3Db { val := 1, jwtExp := 1000 } { val := 2, jwtExp := 1001 }
     { val := 3, jwtExp := 1002 } 1 2 c3Sess c4wUser
     (by decide) (by decide) (by decide) (by decide) (by decide)
     (by decide)⟩

/-- C1 (counterexample): the claim says the active-device count per user
never exceeds the quota (default 4) under these operations, and in
particular that a reactivating login at the quota does not exceed it. From
a state satisfying the invariant — user 1 with four active devices and one
inactive device (fingerprint 15) — a single login with fingerprint 15
succeeds (the quota check only guards the creation path) and reactivates
the fifth device: user 1 ends with five active devices. -/
theorem c1_reactivation_exceeds_quota_cx :
    QuotaInv 4 c1cxDb ∧
    (login 4 100 7 15 9 "n" 3 { val := 1, jwtExp := 1000 } true { db := c1cxDb, fw := [] }).1 =
      .ok 5 ∧
    activeCount 1 (login 4 100 7 15 9 "n" 3 { val := 1, jwtExp := 1000 } true
      { db := c1cxDb, fw := [] }).2.db = 5 := by
  refine ⟨?_, by decide, by decide⟩
  intro uid
  by_cases h : uid = 1
  · subst h; decide
  · have h' : ¬ (1 = uid) := fun hh => h hh.symm
    simp [activeCount, c1cxDb, c4wDev, List.countP_cons, h']

/-- C1 (amended): the quota invariant is preserved by logout, device
disconnect, device delete and disconnect-all, and by any login that does not
reactivate an inactive device record (the fingerprint matches no device, or
only an already-active one): under that proviso no user's active-device
count ever exceeds the configured quota. A login whose fingerprint matches
an inactive device record reactivates it unconditionally and can push its
owner past the quota (see the counterexample). -/
theorem c1_quota_preservation_amended
    (maxD ident pw mac ip uid did now adminId : Nat) (dname : String)
    (ftok : RTok) (rtok : Option RTok) (fwOk : Bool) (fails : Nat → Bool) (s : Sys)
    (hInv : QuotaInv maxD s.db)
    (hids : (s.db.devices.map (fun x => x.id)).Nodup)
    (hAct : ∀ d, findDeviceByMac mac s.db = some d → d.isActive = true) :
    QuotaInv maxD (logout rtok s.db).1 ∧
    QuotaInv maxD (disconnectDevice uid did now fwOk s).2.1.db ∧
    QuotaInv maxD (deleteDevice uid did fwOk s).2.db ∧
    QuotaInv maxD (disconnectAll fails now adminId s).2.1.db ∧
    QuotaInv maxD (login maxD ident pw mac ip dname now ftok fwOk s).2.db := by
  refine ⟨?_, ?_, ?_, ?_, ?_⟩
  · -- logout touches only sessions
    cases rtok with
    | none => exact hInv
    | some t => exact fun v => hInv v
  · -- disconnect deactivates, never activates
    rcases hfd : findOwnedDevice uid did s.db with _ | d
    · simp only [disconnectDevice, hfd]; exact hInv
    · simp only [disconnectDevice, hfd]
      intro v
      refine Nat.le_trans ?_ (hInv v)
      refine countP_map_le _ _ _ (fun x hpx => ?_)
      by_cases hc : x.id = did
      · simp [hc] at hpx
      · rw [if_neg hc] at hpx; exact hpx
  · -- delete removes rows
    rcases hfd : findOwnedDevice uid did s.db with _ | d
    · simp only [deleteDevice, hfd]; exact hInv
    · simp only [deleteDevice, hfd]
      intro v
      exact Nat.le_trans (countP_filter_le _ _ _) (hInv v)
  · -- disconnect-all deactivates everything
    intro v
    have hz : activeCount v (disconnectAll fails now adminId s).2.1.db = 0 := by
      simp only [disconnectAll, activeCount]
      rw [List.countP_eq_zero]
      intro x hx
      rw [List.mem_map] at hx
      obtain ⟨y, hy, rfl⟩ := hx
      by_cases hya : y.isActive = true <;> simp [hya]
    omega
  · -- login: creation is quota-guarded; reuse of an active record is neutral
    rcases hu : findUser ident s.db with _ | u
    · simp only [login, hu]; exact hInv
    · by_cases hpw : pw = u.password
      · rcases hd : findDeviceByMac mac s.db with _ | d
        · by_cases hq : maxD ≤ activeCount u.id s.db
          · simp only [login, hu, hd]
            rw [if_pos hpw]
            simp only [if_pos hq]
            exact hInv
          · simp only [login, hu, hd]
            rw [if_pos hpw]
            simp only [if_neg hq]
            intro v
            simp only [activeCount, List.countP_append, List.countP_cons, List.countP_nil]
            by_cases hv : u.id = v
            · subst hv
              have hlt : activeCount u.id s.db < maxD := Nat.lt_of_not_le hq
              simp only [activeCount] at hlt
              simp only [Bool.and_true, decide_eq_true_eq]
              rw [if_pos trivial]
              omega
            · simp only [Bool.and_true, decide_eq_true_eq]
              rw [if_neg hv]
              have hb := hInv v
              simp only [activeCount] at hb
              omega
        · have hact := hAct d hd
          have hdmem : d ∈ s.db.devices := by
            have h := hd
            rw [findDeviceByMac] at h
            exact List.mem_of_find?_eq_some h
          simp only [login, hu, hd]
          rw [if_pos hpw]
          intro v
          simp only [activeCount]
          rw [countP_map_congr _ _ _ (fun x hx => ?_)]
          · exact hInv v
          · by_cases hc : x.id = d.id
            · have hxd : x = d := List.inj_on_of_nodup_map hids hx hdmem hc
              subst hxd
              rw [if_pos hc]
              simp [hact]
            · rw [if_neg hc]
      · simp only [login, hu]
        rw [if_neg hpw]
        exact hInv

/-- C1 (witness): the amended preservation theorem applied to a one-user
store with no devices, quota 4. -/
theorem c1_quota_preservation_amended_witness :
    QuotaInv 4 c1w.db ∧
    (c1w.db.devices.map (fun x => x.id)).Nodup ∧
    (∀ d, findDeviceByMac 5 c1w.db = some d → d.isActive = true) ∧
    (QuotaInv 4 (logout (some { val := 1, jwtExp := 9 }) c1w.db).1 ∧
     QuotaInv 4 (disconnectDevice 1 2 3 true c1w).2.1.db ∧
     QuotaInv 4 (deleteDevice 1 2 true c1w).2.db ∧
     QuotaInv 4 (disconnectAll (fun _ => false) 3 1 c1w).2.1.db ∧
     QuotaInv 4 (login 4 100 7 5 9 "n" 3 { val := 1, jwtExp := 9 } true c1w).2.db) :=
  ⟨fun _ => Nat.zero_le 4, by decide,
   fun d h => by simp [findDeviceByMac, c1w] at h,
   c1_quota_preservation_amended 4 100 7 5 9 1 2 3 1 "n" { val := 1, jwtExp := 9 }
     (some { val := 1, jwtExp := 9 }) true (fun _ => false) c1w
     (fun _ => Nat.zero_le 4) (by decide)
     (fun d h => by simp [findDeviceByMac, c1w] at h)⟩

end AccessManager
